import Mathlib

/-!
Verification development for the RecoveryManager repository (src/voice.py).

The file shallowly embeds the call-orchestration core of `voice.py`:
the customer-record normalizer (`CustomerData.create_response_object`,
`CustomerData._build_main_message`), the CRM lookup
(`HubSpotService.fetch_contact`), the voice-session manager
(`VoiceService.create_call`, `fetch_transcript`, `save_conversations`),
the script builder (`SYSTEM_PROMPT.format` inside `create_call`), and the
HTTP handlers `handle_call_status` and `get_call_transcript`.

Python dict values that matter to the code are either `None` or strings,
so they are modelled by `PyVal`; JSON payloads from the voice provider are
modelled by a small `Json` type; network and file-system effects are
modelled by explicit oracles (an outcome argument per outbound call, a
boolean per file-system operation), and the process-wide globals
`voice_call_id` / `twilio_call_id` / `transcription_customer_name` by an
explicit `GState` record threaded through the operations.
-/

namespace RecoveryManager

/-- A Python value as it occurs in the property mappings handled by the
code: either `None` or a string. -/
inductive PyVal where
  | vnull : PyVal
  | vstr : String → PyVal
deriving DecidableEq, Repr

/-- How Python renders a value inside an f-string: `None` prints as the
text `None`, a string prints as itself. -/
def pyFormat : PyVal → String
  | .vnull => "None"
  | .vstr s => s

/-- A Python exception as it flows through the handlers: either an
`HTTPException(status_code, detail)` or any other exception with its
message. -/
inductive PyExn where
  | http : Nat → String → PyExn
  | other : String → PyExn
deriving DecidableEq, Repr

/-- Rendering `str(e)`: FastAPI HTTPExceptions print as
`"{status_code}: {detail}"`; other exceptions print their message. -/
def exnStr : PyExn → String
  | .http code detail => toString code ++ ": " ++ detail
  | .other msg => msg

/-- Pydantic validation of a value against a `str`-typed model field:
a string passes through, `None` is rejected with a validation error. -/
def pyStr : PyVal → Except PyExn String
  | .vnull => .error (.other "none is not an allowed value")
  | .vstr s => .ok s

/-- Python `value.strip()`: defined on strings (trims surrounding
whitespace), raises `AttributeError` on `None`. -/
def pyStrip : PyVal → Except PyExn String
  | .vnull => .error (.other "AttributeError: NoneType has no attribute strip")
  | .vstr s => .ok s.trim

/-- A raw property mapping (a Python dict with string keys). -/
abbrev ContactData := List (String × PyVal)

/-- Python `d.get(key, default)` where the present value may be `None`
and the default at every call site is a string. -/
def dictGet (d : ContactData) (key : String) (dflt : String) : PyVal :=
  match d.find? (fun p => p.1 == key) with
  | some p => p.2
  | none => .vstr dflt

/-- `DESTINATION_PHONE_NUMBER`: the configured default destination number
(`os.getenv("DESTINATION_PHONE_NUMBER", "+918919025218")`; modelled at its
shipped default). -/
def DESTINATION_PHONE_NUMBER : String := "+918919025218"

/-- `VOICE_API_URL` constant of the source. -/
def VOICE_API_URL : String := "https://api.ultravox.ai/api/calls"

/-- A wall-clock instant, as far as `datetime.now().strftime` consumes it. -/
structure Timestamp where
  year : Nat
  month : Nat
  day : Nat
  hour : Nat
  minute : Nat
  second : Nat
deriving DecidableEq, Repr

/-- Zero-padded two-digit rendering, as `strftime` does for `%m %d %H %M %S`. -/
def pad2 (n : Nat) : String :=
  if n < 10 then "0" ++ toString n else toString n

/-- Zero-padded four-digit rendering, as `strftime` does for `%Y`. -/
def pad4 (n : Nat) : String :=
  if n < 10 then "000" ++ toString n
  else if n < 100 then "00" ++ toString n
  else if n < 1000 then "0" ++ toString n
  else toString n

/-- `datetime.now().strftime("%Y-%m-%d")` (used for the `date` field). -/
def strftimeDate (t : Timestamp) : String :=
  pad4 t.year ++ "-" ++ pad2 t.month ++ "-" ++ pad2 t.day

/-- `datetime.now().strftime("%Y%m%d_%H%M%S")` (used for transcript file
names; second granularity). -/
def strftimeStamp (t : Timestamp) : String :=
  pad4 t.year ++ pad2 t.month ++ pad2 t.day ++ "_" ++
    pad2 t.hour ++ pad2 t.minute ++ pad2 t.second

/-- The `ContactResponse` pydantic model: every field is a string. -/
structure ContactResponse where
  bank_name : String
  customer_name : String
  loan_type : String
  outstanding_amount : String
  missed_emi_count : String
  emi_amount : String
  due_date : String
  proposed_months : String
  amount : String
  months : String
  phone_number : String
  call_status : String
  number_of_call_attempts : String
  call_lifted_time : String
  secure_payment_link : String
  preferred_callback_time : String
  main_message : String
  dpd_days : String
  date : String
  agent_name : String
deriving DecidableEq, Repr

/-- `CustomerData._build_main_message`: the f-string composing the main
message from the raw mapping (absent keys use the listed defaults; a
`None` value renders as Python prints it). -/
def build_main_message (d : ContactData) : String :=
  "Hello " ++ pyFormat (dictGet d "customer_name" "") ++
  ", this is " ++ pyFormat (dictGet d "bank_name" "Example Bank") ++
  " regarding your " ++ pyFormat (dictGet d "loan_type" "") ++
  ". Your outstanding balance is " ++ pyFormat (dictGet d "outstanding_amount" "") ++
  " rupees. You have missed " ++ pyFormat (dictGet d "missed_emi_count" "") ++
  " EMI payments of " ++ pyFormat (dictGet d "emi_amount" "") ++
  " rupees each. Your account is " ++ pyFormat (dictGet d "dpd_days" "") ++
  " days past due as of " ++ pyFormat (dictGet d "due_date" "") ++
  ". Please make a payment today via our mobile app at " ++
  pyFormat (dictGet d "secure_payment_link" "https://example.com/payment") ++ "."

/-- `CustomerData.create_response_object`: builds the `ContactResponse`
from the raw mapping.  `customer_name` additionally goes through
`.strip()` (which raises on `None`); every field then passes pydantic
string validation.  `now` stands for `datetime.now()`. -/
def create_response_object (d : ContactData) (now : Timestamp) :
    Except PyExn ContactResponse :=
  let mm := build_main_message d
  match pyStrip (dictGet d "customer_name" "") with
  | .error e => .error e
  | .ok customer_name =>
  match pyStr (dictGet d "phone_number" DESTINATION_PHONE_NUMBER) with
  | .error e => .error e
  | .ok phone_number =>
  match pyStr (dictGet d "loan_type" "") with
  | .error e => .error e
  | .ok loan_type =>
  match pyStr (dictGet d "outstanding_amount" "") with
  | .error e => .error e
  | .ok outstanding_amount =>
  match pyStr (dictGet d "missed_emi_count" "") with
  | .error e => .error e
  | .ok missed_emi_count =>
  match pyStr (dictGet d "emi_amount" "") with
  | .error e => .error e
  | .ok emi_amount =>
  match pyStr (dictGet d "due_date" "") with
  | .error e => .error e
  | .ok due_date =>
  match pyStr (dictGet d "dpd_days" "") with
  | .error e => .error e
  | .ok dpd_days =>
  match pyStr (dictGet d "bank_name" "Example Bank") with
  | .error e => .error e
  | .ok bank_name =>
  match pyStr (dictGet d "proposed_months" "") with
  | .error e => .error e
  | .ok proposed_months =>
  match pyStr (dictGet d "amount" "") with
  | .error e => .error e
  | .ok amount =>
  match pyStr (dictGet d "months" "") with
  | .error e => .error e
  | .ok months =>
  match pyStr (dictGet d "call_status" "") with
  | .error e => .error e
  | .ok call_status =>
  match pyStr (dictGet d "number_of_call_attempts" "") with
  | .error e => .error e
  | .ok number_of_call_attempts =>
  match pyStr (dictGet d "call_lifted_time" "") with
  | .error e => .error e
  | .ok call_lifted_time =>
  match pyStr (dictGet d "secure_payment_link" "https://example.com/payment") with
  | .error e => .error e
  | .ok secure_payment_link =>
  match pyStr (dictGet d "preferred_callback_time" "") with
  | .error e => .error e
  | .ok preferred_callback_time =>
  .ok {
    bank_name := bank_name
    customer_name := customer_name
    loan_type := loan_type
    outstanding_amount := outstanding_amount
    missed_emi_count := missed_emi_count
    emi_amount := emi_amount
    due_date := due_date
    proposed_months := proposed_months
    amount := amount
    months := months
    phone_number := phone_number
    call_status := call_status
    number_of_call_attempts := number_of_call_attempts
    call_lifted_time := call_lifted_time
    secure_payment_link := secure_payment_link
    preferred_callback_time := preferred_callback_time
    main_message := mm
    dpd_days := dpd_days
    date := strftimeDate now
    agent_name := "Yaswanth" }

/-- A JSON value as returned by the voice provider (`response.json()`).
`jobj` is a Python dict, `jarr` a list, `jstr` a string. -/
inductive Json where
  | jnull : Json
  | jstr : String → Json
  | jarr : List Json → Json
  | jobj : List (String × Json) → Json

/-- Python truthiness of a JSON value (`if call_transcript.get("results"):`):
empty strings, empty lists, empty dicts and `None` are falsy. -/
def Json.truthy : Json → Bool
  | .jnull => false
  | .jstr s => !(s == "")
  | .jarr xs => !xs.isEmpty
  | .jobj fs => !fs.isEmpty

/-- Truthiness of `d.get(k)`: a missing key gives `None`, which is falsy. -/
def truthyOpt : Option Json → Bool
  | none => false
  | some j => j.truthy

/-- Python `value.get(key)` on a fetched JSON value: dict lookup when the
value is a dict, `AttributeError` otherwise (strings/lists/None have no
`.get`). -/
def jsonGetAttr (j : Json) (key : String) : Except PyExn (Option Json) :=
  match j with
  | .jobj fs =>
      match fs.find? (fun p => p.1 == key) with
      | some p => .ok (some p.2)
      | none => .ok none
  | _ => .error (.other "AttributeError: object has no attribute get")

/-- Pydantic validation of a fetched JSON value against the `str`-typed
`TranscriptResponse.transcript` field: only a JSON string passes. -/
def pydanticJsonStr : Json → Except PyExn String
  | .jstr s => .ok s
  | _ => .error (.other "str type expected")

/-- The `TranscriptResponse` pydantic model. -/
structure TranscriptResponse where
  call_id : String
  transcript : String
  message : String
deriving DecidableEq, Repr

/-- The form payload of the `/call-status` webhook (`CallStatusUpdate`
shape: `CallSid` and `CallStatus` are required form fields, the rest are
optional). -/
structure CallStatusUpdate where
  CallSid : String
  CallStatus : String
  AccountSid : Option String
  To : Option String
  From : Option String
  CallDuration : Option String
  Direction : Option String
deriving DecidableEq, Repr

/-- Body of a webhook HTTP response: the handler returns either
`{"message": ..., "status": ...}` or `{"message": ..., "error": ...}`. -/
inductive RBody where
  | okBody : String → String → RBody
  | errBody : String → String → RBody
deriving DecidableEq, Repr

/-- An HTTP response: status code plus body. -/
structure HttpResponse where
  httpStatus : Nat
  body : RBody
deriving DecidableEq, Repr

/-- The process-wide globals of `voice.py`: `voice_call_id` (written from
`voice_response.get("callId")`, so possibly `None`), `twilio_call_id`,
and `transcription_customer_name`. -/
structure GState where
  voice_call_id : PyVal
  twilio_call_id : String
  transcription_customer_name : String
deriving DecidableEq, Repr

/-- Initial values of the module-level globals (all empty strings). -/
def initState : GState :=
  { voice_call_id := .vstr ""
    twilio_call_id := ""
    transcription_customer_name := "" }

/-- The JSON body returned by the voice provider on session creation, as
far as the code reads it (`voice_response.get("callId")` /
`voice_response.get("joinUrl")`). -/
structure VoiceResponse where
  callId : Option String
  joinUrl : Option String
deriving DecidableEq, Repr

/-- Storing a `dict.get` result (string or `None`) into a global. -/
def optToPy : Option String → PyVal
  | none => .vnull
  | some s => .vstr s

/-- `VoiceService.create_call`, restricted to its effects: on a successful
provider response it overwrites the globals `voice_call_id` (with the
response's `callId`) and `transcription_customer_name` (with the
customer's name) and returns the response; on a `requests` failure it
raises `HTTPException(500, "Failed to create voice call: ...")` and
leaves the globals untouched.  `outcome` is the provider call's result. -/
def create_call (st : GState) (customer_data : ContactResponse)
    (outcome : Except String VoiceResponse) :
    Except PyExn (VoiceResponse × GState) :=
  match outcome with
  | .error msg => .error (.http 500 ("Failed to create voice call: " ++ msg))
  | .ok vr =>
      .ok (vr, { st with
        voice_call_id := optToPy vr.callId
        transcription_customer_name := customer_data.customer_name })

/-- `TwilioService.initiate_call`, restricted to its effects: on success
it records the returned SID in the global `twilio_call_id`; on failure it
raises `HTTPException(500, "Failed to initiate call: ...")`. -/
def twilio_initiate_call (st : GState) (outcome : Except String String) :
    Except PyExn (String × GState) :=
  match outcome with
  | .error msg => .error (.http 500 ("Failed to initiate call: " ++ msg))
  | .ok sid => .ok (sid, { st with twilio_call_id := sid })

/-- The transcript URL `f"{VOICE_API_URL}/{call_id}/messages"`. -/
def transcript_url (call_id : String) : String :=
  VOICE_API_URL ++ "/" ++ call_id ++ "/messages"

/-- `VoiceService.fetch_transcript`: issues a GET against the transcript
URL (the network is the oracle `fetchO`, keyed by URL); any `requests`
failure is re-raised as `HTTPException(500, "Failed to fetch transcript:
...")`. -/
def fetch_transcript (fetchO : String → Except String Json) (call_id : String) :
    Except PyExn Json :=
  match fetchO (transcript_url call_id) with
  | .ok j => .ok j
  | .error msg => .error (.http 500 ("Failed to fetch transcript: " ++ msg))

/-- The persisted-transcript store: a list of (file name, JSON content). -/
abbrev FS := List (String × Json)

/-- The transcript file name
`f"conversations/{customer_name}_{timestamp}.json"`. -/
def transcript_file_name (customer_name : String) (now : Timestamp) : String :=
  "conversations/" ++ customer_name ++ "_" ++ strftimeStamp now ++ ".json"

/-- `VoiceService.save_conversations`.  `os.makedirs` runs OUTSIDE the
`try`, so a directory-creation failure (`mkdirOk = false`) propagates as
an exception; the file write sits inside the `try`, so a write failure
(`writeOk = false`) is printed and swallowed, returning normally with no
file persisted. -/
def save_conversations (fs : FS) (mkdirOk writeOk : Bool)
    (transcript : Json) (customer_name : String) (now : Timestamp) :
    Except PyExn FS :=
  if mkdirOk then
    if writeOk then
      .ok (fs ++ [(transcript_file_name customer_name now, transcript)])
    else
      .ok fs
  else
    .error (.other "OSError: could not create directory")

/-- The `/call-status` webhook handler `handle_call_status`.  The whole
body runs inside one `try`; every raise lands in the final
`except Exception`, which returns `{"message": "Error processing status",
"error": str(e)}` — still as HTTP 200.  On `CallStatus == "completed"` it
fetches the transcript of the stored global `voice_call_id`, and when the
fetched value's `"results"` entry is truthy it saves the transcript under
the stored global `transcription_customer_name`.  All other statuses
(busy / no-answer / failed / answered / anything else) only log.  The
returned triple is (HTTP response, resulting file store, number of
transcript-fetch calls issued). -/
def handle_call_status (st : GState) (fs : FS)
    (fetchO : String → Except String Json) (mkdirOk writeOk : Bool)
    (now : Timestamp) (ev : CallStatusUpdate) :
    HttpResponse × FS × Nat :=
  if ev.CallStatus = "completed" then
    match fetch_transcript fetchO (pyFormat st.voice_call_id) with
    | .error e => (⟨200, .errBody "Error processing status" (exnStr e)⟩, fs, 1)
    | .ok call_transcript =>
      match jsonGetAttr call_transcript "results" with
      | .error e => (⟨200, .errBody "Error processing status" (exnStr e)⟩, fs, 1)
      | .ok results =>
        if truthyOpt results then
          match save_conversations fs mkdirOk writeOk call_transcript
              st.transcription_customer_name now with
          | .error e =>
              (⟨200, .errBody "Error processing status" (exnStr e)⟩, fs, 1)
          | .ok fs' => (⟨200, .okBody "Status received" "ok"⟩, fs', 1)
        else
          (⟨200, .okBody "Status received" "ok"⟩, fs, 1)
  else
    (⟨200, .okBody "Status received" "ok"⟩, fs, 0)

/-- The outcome of the HubSpot search call inside
`HubSpotService.fetch_contact`: either the list of matching records
(each record being its `properties` mapping) or an API failure. -/
inductive HubSpotOutcome where
  | success : List ContactData → HubSpotOutcome
  | failure : String → HubSpotOutcome

/-- The `try` body of `HubSpotService.fetch_contact`: an API failure
raises; zero results raise `HTTPException(404, ...)`; otherwise the first
match's properties are returned. -/
def fetch_contact_try (outcome : HubSpotOutcome) (customer_name : String) :
    Except PyExn ContactData :=
  match outcome with
  | .failure msg => .error (.other msg)
  | .success [] =>
      .error (.http 404 ("No contact found for name: " ++ customer_name))
  | .success (r :: _) => .ok r

/-- `HubSpotService.fetch_contact`: the `try` body wrapped in
`except Exception as e`, which re-raises EVERY exception — the 404 raised
for zero matches included — as `HTTPException(500, "Failed to fetch
HubSpot data: " ++ str(e))`. -/
def fetch_contact (outcome : HubSpotOutcome) (customer_name : String) :
    Except PyExn ContactData :=
  match fetch_contact_try outcome customer_name with
  | .ok r => .ok r
  | .error e =>
      .error (.http 500 ("Failed to fetch HubSpot data: " ++ exnStr e))

/-- The `/fetch-transcript/{call_id}` endpoint `get_call_transcript`:
fetches the transcript (an `HTTPException` from `fetch_transcript`
re-raises unchanged via `except HTTPException: raise`), then builds a
`TranscriptResponse` whose `transcript` field is `str`-typed — pydantic
validation of the fetched JSON value happens there; a validation failure
is caught by `except Exception` and re-raised as `HTTPException(500,
"Failed to fetch transcript: " ++ str(e))`. -/
def get_call_transcript (fetchO : String → Except String Json)
    (call_id : String) : Except PyExn TranscriptResponse :=
  match fetch_transcript fetchO call_id with
  | .error e => .error e
  | .ok transcript =>
    match pydanticJsonStr transcript with
    | .ok s =>
        .ok { call_id := call_id
              transcript := s
              message := "Transcript fetched successfully for call " ++ call_id }
    | .error e =>
        .error (.http 500 ("Failed to fetch transcript: " ++ exnStr e))

/-- Literal piece 0 of `SYSTEM_PROMPT` (before `{agent_name}`). -/
def sp0 : String := "\n# Instructions for Voice Agent\n- You are "

/-- Literal piece 1 of `SYSTEM_PROMPT` (between `{agent_name}` and the first `{bank_name}`). -/
def sp1 : String := ", a professional recovery agent for "

/-- Literal piece 2 of `SYSTEM_PROMPT` (up to the first `{customer_name}`). -/
def sp2 : String := ".\n- Use a professional, polite tone (e.g., \x27Yaswanth\x27 voice, en-IN).\n- Replace placeholders with provided customer data.\n- Deliver the message clearly, pausing briefly (1-2 seconds) between sentences.\n- Detect reluctance indicators (e.g., \x22not now,\x22 \x22busy,\x22 \x22later,\x22 \x22can\x27t talk\x22) in customer responses.\n- Keep the total message under 30 seconds unless the customer engages further.\n- Log responses for feedback analysis (e.g., customer sentiment, preferred call time).\n- When you say \x22Thank you for your time, "

/-- Literal piece 3 of `SYSTEM_PROMPT` (up to the greeting's `{bank_name}`). -/
def sp3 : String := ". We\x27ll follow up later. Goodbye.\x22 and the user responds with \x22bye\x22 or \x22goodbye\x22 (case-insensitive), pause for 2 seconds and then end the call.\n\n# Prompt Flow\n1. **Greeting**:\n   \x22Hello, this is "

/-- Literal piece 4 of `SYSTEM_PROMPT` (up to the greeting's `{customer_name}`). -/
def sp4 : String := " calling from the recovery department. May I speak with "

/-- Literal piece 5 of `SYSTEM_PROMPT` (up to `{main_message}`). -/
def sp5 : String := ", please?\x22\n\n2. **Confirm Identity**:\n   - If the customer confirms their identity (e.g., \x22yes,\x22 \x22speaking,\x22 or their name), proceed to Main Message.\n   - If no response or unclear response after 5 seconds, repeat the greeting once, then end with: \x22We\x27ll try reaching you again later. Thank you.\x22\n\n3. **Main Message**:\n   - In the message if there is any date or money, you should tell the date (e.g.,Twenty Second June of Two Thousand Twenty Five) or money (e.g., Fourty Hundred Rupees) like a human. \n   \x22"

/-- Literal piece 6 of `SYSTEM_PROMPT` (up to the third `{customer_name}`). -/
def sp6 : String := "\x22\n\n4. **Handle Customer Response**:\n   - If the customer responds positively (e.g., \x22okay,\x22 \x22sure,\x22 \x22tell me more\x22) or asks about payment:\n     - Respond: \x22Thank you, "

/-- Literal piece 7 of `SYSTEM_PROMPT` (up to the fourth `{customer_name}`). -/
def sp7 : String := ". Would you like assistance with the next steps now?\x22\n     - Wait for response (up to 3 seconds).\n     - If no further engagement, end with: \x22Thank you for your time. Please act on this soon to avoid further action. Goodbye.\x22\n   - If the customer indicates reluctance (e.g., \x22not now,\x22 \x22busy,\x22 \x22call later\x22):\n     - Respond: \x22I understand, "

/-- Literal piece 8 of `SYSTEM_PROMPT` (up to `{preferred_callback_time}`). -/
def sp8 : String := ". Could you please share a preferred time for us to call you back?\x22\n     - Collect response (e.g., \x22tomorrow morning,\x22 \x22evening\x22) and confirm: \x22Thank you, we\x27ll call you back at "

/-- Literal piece 9 of `SYSTEM_PROMPT` (up to the last `{customer_name}`). -/
def sp9 : String := ". Have a good day.\x22\n     - Log the preferred time for feedback analysis.\n   - If no response or negative response (e.g., \x22don\x27t call,\x22 \x22not interested\x22) after 2 seconds:\n     - Respond: \x22Thank you for your time, "

/-- Literal piece 10 of `SYSTEM_PROMPT` (after the last `{customer_name}`). -/
def sp10 : String := ". We\x27ll follow up later. Goodbye.\x22\n\n5. **End Call**:\n   - Log the interaction with customer_id, response, and any preferred call time for feedback analysis.\n"

/-- `SYSTEM_PROMPT.format(...)` inside `VoiceService.create_call`: the
template's placeholders — in order `agent_name`, `bank_name`,
`customer_name`, `bank_name`, `customer_name`, `main_message`,
`customer_name`, `customer_name`, `preferred_callback_time`,
`customer_name` — replaced by the corresponding `ContactResponse`
fields, with the literal pieces `sp0` … `sp10` in between. -/
def formatted_prompt (cd : ContactResponse) : String :=
  sp0 ++ cd.agent_name ++ sp1 ++ cd.bank_name ++ sp2 ++ cd.customer_name ++
  sp3 ++ cd.bank_name ++ sp4 ++ cd.customer_name ++ sp5 ++ cd.main_message ++
  sp6 ++ cd.customer_name ++ sp7 ++ cd.customer_name ++ sp8 ++
  cd.preferred_callback_time ++ sp9 ++ cd.customer_name ++ sp10

/-- Substring containment: `sub` occurs verbatim inside `s`. -/
def containsStr (s sub : String) : Prop :=
  ∃ p q : String, s = p ++ sub ++ q

/-- The opening-brace character of Python format-placeholder text. -/
def openBrace : Char := Char.ofNat 123

/-- The closing-brace character of Python format-placeholder text. -/
def closeBrace : Char := Char.ofNat 125

/-- `braceFree s` holds when `s` contains no format-placeholder brace at
all — in particular no unresolved `format` placeholder. -/
def braceFree (s : String) : Bool :=
  s.data.all (fun c => !(c == openBrace || c == closeBrace))

/-- Every value present in the mapping is a string (not `None`). -/
def allStringVals (d : ContactData) : Prop :=
  ∀ p ∈ d, p.2 ≠ PyVal.vnull

instance (d : ContactData) : Decidable (allStringVals d) := by
  unfold allStringVals; infer_instance

/-- A fixed instant used to instantiate `datetime.now()` in concrete runs. -/
def ts0 : Timestamp := ⟨2026, 1, 1, 0, 0, 0⟩

/-- A concrete global state: a session `uv-123` created for customer
`Asha Rao`, telephony SID `CA999`. -/
def st0 : GState :=
  { voice_call_id := .vstr "uv-123"
    twilio_call_id := "CA999"
    transcription_customer_name := "Asha Rao" }

/-- A fetched transcript with one conversation turn. -/
def transcriptOne : Json := .jobj [("results", .jarr [.jstr "hello"])]

/-- A fetched transcript with an empty `results` list. -/
def transcriptEmpty : Json := .jobj [("results", .jarr [])]

/-- A transcript-fetch oracle that always succeeds with one turn. -/
def oracleOne : String → Except String Json := fun _ => .ok transcriptOne

/-- A transcript-fetch oracle that always succeeds with zero turns. -/
def oracleEmpty : String → Except String Json := fun _ => .ok transcriptEmpty

/-- A `completed` status event for telephony call SID `CA1`. -/
def evCompleted : CallStatusUpdate :=
  ⟨"CA1", "completed", none, none, none, none, none⟩

/-- A `completed` status event differing from `evCompleted` only in its SID. -/
def evCompleted2 : CallStatusUpdate :=
  ⟨"CA2", "completed", none, none, none, none, none⟩

/-- A `busy` status event. -/
def evBusy : CallStatusUpdate :=
  ⟨"CA1", "busy", none, none, none, none, none⟩

/-- A concrete fully-populated call context used to instantiate the
script-builder theorem. -/
def cdW : ContactResponse :=
  { bank_name := "Example Bank"
    customer_name := "Asha Rao"
    loan_type := "personal loan"
    outstanding_amount := "45000"
    missed_emi_count := "3"
    emi_amount := "5000"
    due_date := "2026-01-15"
    proposed_months := "6"
    amount := "45000"
    months := "6"
    phone_number := "+918919025218"
    call_status := "pending"
    number_of_call_attempts := "1"
    call_lifted_time := "10:00"
    secure_payment_link := "https://example.com/payment"
    preferred_callback_time := "evening"
    main_message := "Hello Asha Rao, please pay."
    dpd_days := "30"
    date := "2026-01-01"
    agent_name := "Yaswanth" }

/-- A second concrete call context, for a different customer. -/
def cdW2 : ContactResponse :=
  { cdW with customer_name := "Ravi Kumar" }

/-- A successful voice-provider session-creation response. -/
def vrA : VoiceResponse := ⟨some "uv-1", some "wss://join1"⟩

/-- A second successful voice-provider session-creation response. -/
def vrB : VoiceResponse := ⟨some "uv-2", some "wss://join2"⟩

/-- The global state after creating session `vrA` for `cdW` from `initState`. -/
def stA : GState :=
  { voice_call_id := .vstr "uv-1"
    twilio_call_id := ""
    transcription_customer_name := "Asha Rao" }

/-- The global state after creating session `vrB` for `cdW2` from `stA`. -/
def stB : GState :=
  { voice_call_id := .vstr "uv-2"
    twilio_call_id := ""
    transcription_customer_name := "Ravi Kumar" }

/-- A concrete sparse CRM record: only customer name and amount present. -/
def d5 : ContactData :=
  [("customer_name", .vstr "Asha Rao"), ("outstanding_amount", .vstr "45000")]

theorem containsStr_append_right (s t sub : String)
    (h : containsStr s sub) : containsStr (s ++ t) sub := by
  obtain ⟨p, q, rfl⟩ := h
  exact ⟨p, q ++ t, by simp [String.append_assoc]⟩

theorem containsStr_last (s sub : String) : containsStr (s ++ sub) sub :=
  ⟨s, "", by simp⟩

theorem braceFree_append (a b : String) :
    braceFree (a ++ b) = (braceFree a && braceFree b) := by
  simp [braceFree, String.data_append, List.all_append]

theorem dictGet_vstr (d : ContactData) (h : allStringVals d) (k dflt : String) :
    ∃ s, dictGet d k dflt = .vstr s := by
  unfold dictGet
  cases hf : d.find? (fun p => p.1 == k) with
  | none => exact ⟨dflt, rfl⟩
  | some p =>
    have hp : p ∈ d := List.mem_of_find?_eq_some hf
    cases hv : p.2 with
    | vnull => exact absurd hv (h p hp)
    | vstr s => exact ⟨s, by simp [hv]⟩

/-- Claim C1: the call-status handler dispatches on the status value —
a `completed` status whose fetched transcript contains at least one turn
persists exactly one transcript file; a `completed` status with an empty
transcript persists zero files; and any status other than `completed`
issues zero transcript-fetch calls and persists zero files. -/
theorem handle_call_status_dispatch
    (st : GState) (fs : FS) (fetchO : String → Except String Json)
    (now : Timestamp) (ev : CallStatusUpdate) (t t' turn : Json) (rest : List Json) :
    (ev.CallStatus = "completed" →
      fetchO (transcript_url (pyFormat st.voice_call_id)) = .ok t →
      jsonGetAttr t "results" = .ok (some (.jarr (turn :: rest))) →
      (handle_call_status st fs fetchO true true now ev).2.1
        = fs ++ [(transcript_file_name st.transcription_customer_name now, t)])
    ∧
    (ev.CallStatus = "completed" →
      fetchO (transcript_url (pyFormat st.voice_call_id)) = .ok t' →
      jsonGetAttr t' "results" = .ok (some (.jarr [])) →
      (handle_call_status st fs fetchO true true now ev).2.1 = fs)
    ∧
    (ev.CallStatus ≠ "completed" →
      ∀ mkdirOk writeOk,
        (handle_call_status st fs fetchO mkdirOk writeOk now ev).2.2 = 0 ∧
        (handle_call_status st fs fetchO mkdirOk writeOk now ev).2.1 = fs) := by
  refine ⟨?_, ?_, ?_⟩
  · intro hc ho hres
    simp [handle_call_status, hc, fetch_transcript, ho, hres, truthyOpt,
      Json.truthy, save_conversations]
  · intro hc ho hres
    simp [handle_call_status, hc, fetch_transcript, ho, hres, truthyOpt,
      Json.truthy]
  · intro hc mkdirOk writeOk
    exact ⟨by simp [handle_call_status, hc], by simp [handle_call_status, hc]⟩

/-- Concrete instantiation of `handle_call_status_dispatch`: a completed
event with a one-turn transcript persists exactly that file; a completed
event with an empty transcript persists nothing; a busy event issues no
fetch and persists nothing. -/
theorem handle_call_status_dispatch_witness :
    (handle_call_status st0 [] oracleOne true true ts0 evCompleted).2.1
      = [(transcript_file_name "Asha Rao" ts0, transcriptOne)]
    ∧ (handle_call_status st0 [] oracleEmpty true true ts0 evCompleted).2.1 = []
    ∧ (handle_call_status st0 [] oracleOne true true ts0 evBusy).2.2 = 0
    ∧ (handle_call_status st0 [] oracleOne true true ts0 evBusy).2.1 = [] := by
  refine ⟨?_, ?_, ?_, ?_⟩
  · simpa using (handle_call_status_dispatch st0 [] oracleOne ts0 evCompleted
      transcriptOne transcriptOne (.jstr "hello") []).1 rfl rfl rfl
  · exact (handle_call_status_dispatch st0 [] oracleEmpty ts0 evCompleted
      transcriptEmpty transcriptEmpty (.jstr "hello") []).2.1 rfl rfl rfl
  · exact ((handle_call_status_dispatch st0 [] oracleOne ts0 evBusy
      transcriptOne transcriptOne (.jstr "hello") []).2.2 (by decide) true true).1
  · exact ((handle_call_status_dispatch st0 [] oracleOne ts0 evBusy
      transcriptOne transcriptOne (.jstr "hello") []).2.2 (by decide) true true).2

/-- Claim C2: every run of the call-status webhook handler yields HTTP 200
carrying either the message/status body or the message/error body — any
internal failure (a transcript-fetch failure, an attribute error on the
fetched value, a directory-creation failure during the save) is caught and
reported in the body, and no non-200 response is ever produced. -/
theorem call_status_webhook_always_ok
    (st : GState) (fs : FS) (fetchO : String → Except String Json)
    (mkdirOk writeOk : Bool) (now : Timestamp) (ev : CallStatusUpdate) :
    (handle_call_status st fs fetchO mkdirOk writeOk now ev).1.httpStatus = 200 ∧
    ((handle_call_status st fs fetchO mkdirOk writeOk now ev).1.body
        = .okBody "Status received" "ok" ∨
      ∃ e, (handle_call_status st fs fetchO mkdirOk writeOk now ev).1.body
        = .errBody "Error processing status" e) := by
  unfold handle_call_status
  repeat' split
  all_goals simp

/-- Claim C3 (code bug): on zero CRM matches `fetch_contact` raises the
intended `HTTPException(404)` inside its `try`, but the blanket
`except Exception` catches that very exception and re-raises it as
HTTP 500 (`Failed to fetch HubSpot data: 404: ...`), so the caller
observes an UpstreamError where the claim (and the code's own 404 raise)
says NotFound.  An actual API failure yields the claimed 500, and a
non-empty result list yields exactly the first record. -/
theorem fetch_contact_zero_matches_gives_500 :
    fetch_contact (.success []) "Asha Rao"
      = .error (.http 500
          "Failed to fetch HubSpot data: 404: No contact found for name: Asha Rao")
    ∧ (∀ msg customer_name, fetch_contact (.failure msg) customer_name
        = .error (.http 500 ("Failed to fetch HubSpot data: " ++ msg)))
    ∧ (∀ r rest customer_name,
        fetch_contact (.success (r :: rest)) customer_name = .ok r) :=
  ⟨rfl, fun _ _ => rfl, fun _ _ _ => rfl⟩

/-- Claim C4: the process-wide current-session state is the single
(voice session id, customer name) pair — each successful `create_call`
overwrites exactly this pair (so after two successive creations the later
write wins regardless of the earlier state), and the completed-status
handler consults exactly this pair: its entire result depends on the
fetch oracle only at the stored session id's transcript URL, and the file
it persists is named by the stored customer name. -/
theorem current_session_pair
    (st : GState) (cd1 cd2 : ContactResponse) (vr1 vr2 : VoiceResponse)
    (fs : FS) (o1 o2 : String → Except String Json)
    (mkdirOk writeOk : Bool) (now : Timestamp) (ev : CallStatusUpdate)
    (t turn : Json) (rest : List Json) :
    (create_call st cd1 (.ok vr1) = .ok (vr1,
      { voice_call_id := optToPy vr1.callId
        twilio_call_id := st.twilio_call_id
        transcription_customer_name := cd1.customer_name }))
    ∧
    (∀ st1 st2, create_call st cd1 (.ok vr1) = .ok (vr1, st1) →
      create_call st1 cd2 (.ok vr2) = .ok (vr2, st2) →
      st2.voice_call_id = optToPy vr2.callId ∧
      st2.transcription_customer_name = cd2.customer_name)
    ∧
    (o1 (transcript_url (pyFormat st.voice_call_id))
        = o2 (transcript_url (pyFormat st.voice_call_id)) →
      handle_call_status st fs o1 mkdirOk writeOk now ev
        = handle_call_status st fs o2 mkdirOk writeOk now ev)
    ∧
    (ev.CallStatus = "completed" →
      o1 (transcript_url (pyFormat st.voice_call_id)) = .ok t →
      jsonGetAttr t "results" = .ok (some (.jarr (turn :: rest))) →
      (handle_call_status st fs o1 true true now ev).2.1
        = fs ++ [(transcript_file_name st.transcription_customer_name now, t)]) := by
  refine ⟨rfl, ?_, ?_, ?_⟩
  · intro st1 st2 h1 h2
    simp only [create_call, Except.ok.injEq, Prod.mk.injEq, true_and] at h2
    subst h2
    exact ⟨rfl, rfl⟩
  · intro h
    simp only [handle_call_status, fetch_transcript, h]
  · intro hc ho hres
    simp [handle_call_status, hc, fetch_transcript, ho, hres, truthyOpt,
      Json.truthy, save_conversations]

/-- Concrete instantiation of `current_session_pair`: creating session
`uv-1` for Asha Rao and then session `uv-2` for Ravi Kumar leaves
(`uv-2`, Ravi Kumar) in the globals, and a completed event against the
stored state persists the transcript under the stored customer name. -/
theorem current_session_pair_witness :
    stB.voice_call_id = .vstr "uv-2"
    ∧ stB.transcription_customer_name = "Ravi Kumar"
    ∧ (handle_call_status st0 [] oracleOne true true ts0 evCompleted).2.1
      = [(transcript_file_name "Asha Rao" ts0, transcriptOne)] := by
  obtain ⟨hv, hn⟩ := (current_session_pair initState cdW cdW2 vrA vrB []
    oracleOne oracleOne true true ts0 evCompleted transcriptOne
    (.jstr "hello") []).2.1 stA stB rfl rfl
  refine ⟨hv, hn, ?_⟩
  simpa using (current_session_pair st0 cdW cdW2 vrA vrB []
    oracleOne oracleOne true true ts0 evCompleted transcriptOne
    (.jstr "hello") []).2.2.2 rfl rfl rfl

/-- Claim C5 (counterexample): a record that explicitly maps `bank_name`
to the empty string is normalized to a context whose `bank_name` IS the
empty string — the configured default `Example Bank` fills absent keys
only, refuting "no empty-string field left where a configured default
exists" over all records. -/
theorem normalizer_keeps_explicit_empty_value :
    ∃ c, create_response_object [("bank_name", PyVal.vstr "")] ts0 = .ok c ∧
      c.bank_name = "" :=
  ⟨_, rfl, rfl⟩

/-- Claim C5 (amended): for EVERY record the composed main message
contains the record's customer-name, bank-name, outstanding-amount and
payment-link values (as the normalizer reads them, defaults included)
verbatim in one fixed sentence structure; and the configured defaults
fill absent keys — when the bank-name, payment-link and phone-number keys
are absent from a string-valued record, the normalized fields equal the
non-empty configured defaults (`Example Bank`, the placeholder payment
URL, the configured destination number). -/
theorem normalizer_defaults_and_main_message
    (d : ContactData) (now : Timestamp) :
    (allStringVals d →
      d.find? (fun p => p.1 == "bank_name") = none →
      d.find? (fun p => p.1 == "secure_payment_link") = none →
      d.find? (fun p => p.1 == "phone_number") = none →
      ∃ c, create_response_object d now = .ok c ∧
        c.bank_name = "Example Bank" ∧
        c.secure_payment_link = "https://example.com/payment" ∧
        c.phone_number = DESTINATION_PHONE_NUMBER)
    ∧ containsStr (build_main_message d) (pyFormat (dictGet d "customer_name" ""))
    ∧ containsStr (build_main_message d) (pyFormat (dictGet d "bank_name" "Example Bank"))
    ∧ containsStr (build_main_message d) (pyFormat (dictGet d "outstanding_amount" ""))
    ∧ containsStr (build_main_message d)
        (pyFormat (dictGet d "secure_payment_link" "https://example.com/payment")) := by
  refine ⟨?_, ?_, ?_, ?_, ?_⟩
  · intro h hb hl hp
    obtain ⟨s1, h1⟩ := dictGet_vstr d h "customer_name" ""
    obtain ⟨s3, h3⟩ := dictGet_vstr d h "loan_type" ""
    obtain ⟨s4, h4⟩ := dictGet_vstr d h "outstanding_amount" ""
    obtain ⟨s5, h5⟩ := dictGet_vstr d h "missed_emi_count" ""
    obtain ⟨s6, h6⟩ := dictGet_vstr d h "emi_amount" ""
    obtain ⟨s7, h7⟩ := dictGet_vstr d h "due_date" ""
    obtain ⟨s8, h8⟩ := dictGet_vstr d h "dpd_days" ""
    obtain ⟨s10, h10⟩ := dictGet_vstr d h "proposed_months" ""
    obtain ⟨s11, h11⟩ := dictGet_vstr d h "amount" ""
    obtain ⟨s12, h12⟩ := dictGet_vstr d h "months" ""
    obtain ⟨s13, h13⟩ := dictGet_vstr d h "call_status" ""
    obtain ⟨s14, h14⟩ := dictGet_vstr d h "number_of_call_attempts" ""
    obtain ⟨s15, h15⟩ := dictGet_vstr d h "call_lifted_time" ""
    obtain ⟨s17, h17⟩ := dictGet_vstr d h "preferred_callback_time" ""
    have h2 : dictGet d "phone_number" DESTINATION_PHONE_NUMBER
        = .vstr DESTINATION_PHONE_NUMBER := by simp [dictGet, hp]
    have h9 : dictGet d "bank_name" "Example Bank" = .vstr "Example Bank" := by
      simp [dictGet, hb]
    have h16 : dictGet d "secure_payment_link" "https://example.com/payment"
        = .vstr "https://example.com/payment" := by simp [dictGet, hl]
    simp only [create_response_object, h1, h2, h3, h4, h5, h6, h7, h8, h9, h10,
      h11, h12, h13, h14, h15, h16, h17, pyStr, pyStrip]
    exact ⟨_, rfl, rfl, rfl, rfl⟩
  all_goals
    simp only [build_main_message]
    repeat first
      | exact containsStr_last _ _
      | apply containsStr_append_right

/-- Concrete instantiation of `normalizer_defaults_and_main_message` at a
sparse record holding only a customer name and an outstanding amount. -/
theorem normalizer_defaults_and_main_message_witness :
    (∃ c, create_response_object d5 ts0 = .ok c ∧
      c.bank_name = "Example Bank" ∧
      c.secure_payment_link = "https://example.com/payment" ∧
      c.phone_number = DESTINATION_PHONE_NUMBER)
    ∧ containsStr (build_main_message d5) (pyFormat (dictGet d5 "customer_name" ""))
    ∧ containsStr (build_main_message d5) (pyFormat (dictGet d5 "bank_name" "Example Bank"))
    ∧ containsStr (build_main_message d5) (pyFormat (dictGet d5 "outstanding_amount" ""))
    ∧ containsStr (build_main_message d5)
        (pyFormat (dictGet d5 "secure_payment_link" "https://example.com/payment")) := by
  obtain ⟨hdef, hm1, hm2, hm3, hm4⟩ := normalizer_defaults_and_main_message d5 ts0
  exact ⟨hdef (by decide) rfl rfl rfl, hm1, hm2, hm3, hm4⟩

set_option maxRecDepth 40000 in
/-- Claim C6: for every fully-populated call context the rendered system
prompt contains the literal customer name, main message, agent name, bank
name and preferred callback time substituted for their placeholders, and
— whenever the substituted field values themselves contain no brace
character — the rendered output contains no placeholder syntax at all. -/
theorem script_builder_substitution (cd : ContactResponse) :
    containsStr (formatted_prompt cd) cd.customer_name ∧
    containsStr (formatted_prompt cd) cd.main_message ∧
    containsStr (formatted_prompt cd) cd.agent_name ∧
    containsStr (formatted_prompt cd) cd.bank_name ∧
    containsStr (formatted_prompt cd) cd.preferred_callback_time ∧
    (braceFree cd.agent_name = true → braceFree cd.bank_name = true →
      braceFree cd.customer_name = true → braceFree cd.main_message = true →
      braceFree cd.preferred_callback_time = true →
      braceFree (formatted_prompt cd) = true) := by
  refine ⟨?_, ?_, ?_, ?_, ?_, ?_⟩
  · simp only [formatted_prompt]
    repeat first
      | exact containsStr_last _ _
      | apply containsStr_append_right
  · simp only [formatted_prompt]
    repeat first
      | exact containsStr_last _ _
      | apply containsStr_append_right
  · simp only [formatted_prompt]
    repeat first
      | exact containsStr_last _ _
      | apply containsStr_append_right
  · simp only [formatted_prompt]
    repeat first
      | exact containsStr_last _ _
      | apply containsStr_append_right
  · simp only [formatted_prompt]
    repeat first
      | exact containsStr_last _ _
      | apply containsStr_append_right
  · intro h1 h2 h3 h4 h5
    simp [formatted_prompt, braceFree_append, h1, h2, h3, h4, h5]
    decide

/-- Concrete instantiation of `script_builder_substitution` at the
fully-populated context `cdW`. -/
theorem script_builder_substitution_witness :
    containsStr (formatted_prompt cdW) cdW.customer_name ∧
    containsStr (formatted_prompt cdW) cdW.main_message ∧
    braceFree (formatted_prompt cdW) = true := by
  obtain ⟨h1, h2, _, _, _, h6⟩ := script_builder_substitution cdW
  exact ⟨h1, h2, h6 (by decide) (by decide) (by decide) (by decide) (by decide)⟩

/-- Claim C7 (counterexample): a mapping in which `customer_name` is
present with a null value makes the normalizer raise — `None.strip()` is
an `AttributeError` — refuting totality over mappings with null values. -/
theorem normalizer_null_value_raises :
    ∃ e, create_response_object [("customer_name", PyVal.vnull)] ts0 = .error e :=
  ⟨_, rfl⟩

/-- Claim C7 (amended): the normalizer is total on every mapping whose
present values are strings — keys may be absent and values may be empty —
raising no error and returning a fully-populated context all of whose
fields are strings; a present null value, by contrast, raises. -/
theorem normalizer_total_on_string_values
    (d : ContactData) (now : Timestamp) (h : allStringVals d) :
    ∃ c, create_response_object d now = .ok c := by
  obtain ⟨s1, h1⟩ := dictGet_vstr d h "customer_name" ""
  obtain ⟨s2, h2⟩ := dictGet_vstr d h "phone_number" DESTINATION_PHONE_NUMBER
  obtain ⟨s3, h3⟩ := dictGet_vstr d h "loan_type" ""
  obtain ⟨s4, h4⟩ := dictGet_vstr d h "outstanding_amount" ""
  obtain ⟨s5, h5⟩ := dictGet_vstr d h "missed_emi_count" ""
  obtain ⟨s6, h6⟩ := dictGet_vstr d h "emi_amount" ""
  obtain ⟨s7, h7⟩ := dictGet_vstr d h "due_date" ""
  obtain ⟨s8, h8⟩ := dictGet_vstr d h "dpd_days" ""
  obtain ⟨s9, h9⟩ := dictGet_vstr d h "bank_name" "Example Bank"
  obtain ⟨s10, h10⟩ := dictGet_vstr d h "proposed_months" ""
  obtain ⟨s11, h11⟩ := dictGet_vstr d h "amount" ""
  obtain ⟨s12, h12⟩ := dictGet_vstr d h "months" ""
  obtain ⟨s13, h13⟩ := dictGet_vstr d h "call_status" ""
  obtain ⟨s14, h14⟩ := dictGet_vstr d h "number_of_call_attempts" ""
  obtain ⟨s15, h15⟩ := dictGet_vstr d h "call_lifted_time" ""
  obtain ⟨s16, h16⟩ := dictGet_vstr d h "secure_payment_link" "https://example.com/payment"
  obtain ⟨s17, h17⟩ := dictGet_vstr d h "preferred_callback_time" ""
  simp only [create_response_object, h1, h2, h3, h4, h5, h6, h7, h8, h9, h10,
    h11, h12, h13, h14, h15, h16, h17, pyStr, pyStrip]
  exact ⟨_, rfl⟩

/-- Concrete instantiation of `normalizer_total_on_string_values` at a
mapping present with empty-string values. -/
theorem normalizer_total_on_string_values_witness :
    ∃ c, create_response_object
      [("customer_name", PyVal.vstr ""), ("bank_name", PyVal.vstr "")] ts0
        = .ok c :=
  normalizer_total_on_string_values _ ts0 (by decide)

/-- Claim C8 (counterexample): `os.makedirs` runs outside the `try`, so a
directory-creation failure propagates out of `save_conversations` as an
exception — refuting "never propagates any failure". -/
theorem save_conversations_mkdir_failure_raises :
    ∃ e, save_conversations [] false true transcriptOne "Asha Rao" ts0
      = .error e :=
  ⟨_, rfl⟩

/-- Claim C8 (amended): `save_conversations` writes the transcript under
`conversations/<customer>_<YYYYMMDD_HHMMSS>.json` (a path namespaced by
customer name and a seconds-granularity timestamp); a WRITE failure is
logged and the call returns normally with nothing persisted, never
propagating; a directory-creation failure, however, does propagate to the
caller. -/
theorem save_conversations_best_effort
    (fs : FS) (t : Json) (customer_name : String) (now : Timestamp) :
    save_conversations fs true true t customer_name now
      = .ok (fs ++ [(transcript_file_name customer_name now, t)])
    ∧ save_conversations fs true false t customer_name now = .ok fs
    ∧ (∀ writeOk, ∃ e,
        save_conversations fs false writeOk t customer_name now = .error e)
    ∧ transcript_file_name customer_name now
      = "conversations/" ++ customer_name ++ "_" ++ strftimeStamp now ++ ".json" :=
  ⟨rfl, rfl, fun _ => ⟨_, rfl⟩, rfl⟩

/-- Claim C9 (code bug): on a successful provider lookup the endpoint
crashes into its catch-all — the fetched transcript is a JSON object (the
very shape the completed-status handler consumes via `.get("results")`),
but `TranscriptResponse.transcript` is `str`-typed, so pydantic rejects
it and the endpoint answers 500 instead of the claimed 200
`{call_id, transcript, message}`.  An upstream failure yields the claimed
500, and only a JSON-string transcript would produce the claimed 200. -/
theorem fetch_transcript_endpoint_object_gives_500 :
    get_call_transcript oracleOne "abc"
      = .error (.http 500 "Failed to fetch transcript: str type expected")
    ∧ (∀ msg call_id, get_call_transcript (fun _ => .error msg) call_id
        = .error (.http 500 ("Failed to fetch transcript: " ++ msg)))
    ∧ (∀ s call_id, get_call_transcript (fun _ => .ok (.jstr s)) call_id
        = .ok { call_id := call_id, transcript := s,
                message := "Transcript fetched successfully for call " ++ call_id }) :=
  ⟨rfl, fun _ _ => rfl, fun _ _ => rfl⟩

/-- Claim C10: CallSid-noninterference — two completed status events that
agree on every field except `CallSid` produce identical handler results
(same response, same persisted files, same number of fetch calls): the
handler fetches the stored global session id's transcript and saves it
under the stored global customer name, never consulting the event's
CallSid. -/
theorem callsid_noninterference
    (st : GState) (fs : FS) (fetchO : String → Except String Json)
    (mkdirOk writeOk : Bool) (now : Timestamp) (ev1 ev2 : CallStatusUpdate)
    (h1 : ev1.CallStatus = "completed") (h2 : ev2.CallStatus = "completed")
    (_hA : ev1.AccountSid = ev2.AccountSid) (_hT : ev1.To = ev2.To)
    (_hF : ev1.From = ev2.From) (_hD : ev1.CallDuration = ev2.CallDuration)
    (_hDir : ev1.Direction = ev2.Direction) :
    handle_call_status st fs fetchO mkdirOk writeOk now ev1
      = handle_call_status st fs fetchO mkdirOk writeOk now ev2 := by
  simp [handle_call_status, h1, h2]

/-- Concrete instantiation of `callsid_noninterference` at two completed
events whose SIDs are `CA1` and `CA2`. -/
theorem callsid_noninterference_witness :
    handle_call_status st0 [] oracleOne true true ts0 evCompleted
      = handle_call_status st0 [] oracleOne true true ts0 evCompleted2 :=
  callsid_noninterference st0 [] oracleOne true true ts0 evCompleted
    evCompleted2 rfl rfl rfl rfl rfl rfl rfl

end RecoveryManager
